import Mathlib

/-!
Shallow embedding of the Game-Theory-Bot repository core
(`display_driver.py`, `joystick_driver.py`, `ui_manager.py`) and proofs
about its claimed behaviour.  Effectful code is modelled as pure functions
producing explicit event traces (bus commands/data, pin transitions, draw
calls); the mutable object state is threaded explicitly.
-/

/-! ## ST7789 display driver (`display_driver.py`) -/

/-- Command constants of the ST7789 class. -/
def CASET : Nat := 0x2A
def RASET : Nat := 0x2B
def RAMWR : Nat := 0x2C
def MADCTL : Nat := 0x36

/-- Colour constants of the ST7789 class (this driver's inverted RGB565 table). -/
def ST_WHITE : Nat := 0x0000
def ST_YELLOW : Nat := 0x001F
def ST_GREEN : Nat := 0xF81F
def ST_BLACK : Nat := 0xFFFF

/-- One observable bus-level action of the driver.
`cmd c` is `_write_command(c)` (one opcode byte with command-select asserted);
`data bs` is `_write_data(bytearray(bs))`;
`pixelData n color` is `_write_data(struct.pack(">H", color) * n)`, i.e. `n`
repetitions of the 2-byte big-endian packed colour. -/
inductive DEvent where
  | cmd (c : Nat)
  | data (bs : List Nat)
  | pixelData (n : Nat) (color : Nat)
  deriving DecidableEq

/-- `struct.pack(">H", v)`: big-endian 16-bit encoding (for `v < 65536`). -/
def pack16be (v : Nat) : List Nat := [v / 256 % 256, v % 256]

/-- `_get_madctl` (display_driver.py lines 107-116): orientation register
value from the rotation selector. -/
def getMadctl (rotation : Nat) : Nat :=
  if rotation = 0 then 0x00
  else if rotation = 1 then 0x60
  else if rotation = 2 then 0xC0
  else 0xA0

/-- `set_window(x0, y0, x1, y1)` (display_driver.py lines 145-154): swap the
axes when `self.rotation in (1, 3)`, then write CASET with the (possibly
swapped) x-bounds, RASET with the y-bounds, and issue RAMWR. -/
def setWindowEvents (rotation : Nat) (x0 y0 x1 y1 : Nat) : List DEvent :=
  match (if rotation = 1 ∨ rotation = 3 then (y0, x0, y1, x1) else (x0, y0, x1, y1)) with
  | (a0, b0, a1, b1) =>
    [DEvent.cmd CASET, DEvent.data (pack16be a0 ++ pack16be a1),
     DEvent.cmd RASET, DEvent.data (pack16be b0 ++ pack16be b1),
     DEvent.cmd RAMWR]

/-- The pixel counts written by the chunking loop of `fill_rect`
(display_driver.py lines 175-181):
`pixels = width * height; chunk_size = 512;`
`for _ in range(0, pixels, chunk_size): write(pixel_data * min(chunk_size, pixels)); pixels -= chunk_size`.
`range(0, P, 512)` runs `(P + 511) / 512` iterations, and at the start of
iteration `k` the (decremented) variable `pixels` holds `P - 512 * k`,
which is positive there, so iteration `k` writes `min 512 (P - 512 * k)`
pixels. -/
def fillRectChunkSizes (pixels : Nat) : List Nat :=
  (List.range ((pixels + 511) / 512)).map (fun k => min 512 (pixels - 512 * k))

/-- `fill_rect(x, y, width, height, color)` (display_driver.py lines 166-181)
as the bus event trace it produces, for a screen of size
`screenW × screenH` and rotation `rotation`.  Only the bottom/right edges
are clamped (`x_end = min(x + width - 1, self.width - 1)`, same for `y`);
the chunk loop streams `width * height` pixels regardless. -/
def fillRectEvents (screenW screenH rotation : Nat) (x y width height color : Nat) :
    List DEvent :=
  let xEnd := min (x + width - 1) (screenW - 1)
  let yEnd := min (y + height - 1) (screenH - 1)
  setWindowEvents rotation x y xEnd yEnd ++
    (fillRectChunkSizes (width * height)).map (fun n => DEvent.pixelData n color)

/-- Total number of pixels streamed by a trace (sum of `pixelData` runs). -/
def totalPixelsStreamed (evs : List DEvent) : Nat :=
  (evs.map (fun e => match e with | DEvent.pixelData n _ => n | _ => 0)).sum

/-- Number of data transfers (`pixelData` events) in a trace. -/
def pixelTransferCount (evs : List DEvent) : Nat :=
  (evs.filter (fun e => match e with | DEvent.pixelData _ _ => true | _ => false)).length

/-- `reset()` (display_driver.py lines 97-105) as a trace of pin writes and
delays: with a configured reset line it drives the pin to 1, sleeps 100 ms,
drives 0, sleeps 100 ms, drives 1, sleeps 200 ms; otherwise it does nothing. -/
inductive REvent where
  | setPin (v : Nat)
  | sleepMs (n : Nat)
  deriving DecidableEq

def resetEvents (hasResetPin : Bool) : List REvent :=
  if hasResetPin then
    [REvent.setPin 1, REvent.sleepMs 100, REvent.setPin 0, REvent.sleepMs 100,
     REvent.setPin 1, REvent.sleepMs 200]
  else []

/-- Modelled from the spec: "the canvas-clipped intersection of the rectangle
with the screen" — the area of `[x, x+w) × [y, y+h) ∩ [0, W) × [0, H)` for
non-negative rectangle coordinates.  This follows the spec's words and is
*not* what the source computes; it is used to compare the spec's claimed
clipping behaviour with `fillRectEvents`. -/
def specClippedArea (screenW screenH : Nat) (x y w h : Nat) : Nat :=
  (min (x + w) screenW - x) * (min (y + h) screenH - y)

/-! ### Chunking lemmas -/

theorem fillRectChunkSizes_zero : fillRectChunkSizes 0 = [] := rfl

theorem fillRectChunkSizes_pos (P : Nat) (h : 0 < P) :
    fillRectChunkSizes P = min 512 P :: fillRectChunkSizes (P - 512) := by
  unfold fillRectChunkSizes
  have hn : (P + 511) / 512 = (P - 512 + 511) / 512 + 1 := by omega
  rw [hn, List.range_succ_eq_map, List.map_cons, List.map_map]
  have : (fun k => min 512 (P - 512 * k)) ∘ Nat.succ
       = (fun k => min 512 (P - 512 - 512 * k)) := by
    funext k
    have : P - 512 * Nat.succ k = P - 512 - 512 * k := by omega
    simp [Function.comp, this]
  simp [this]

theorem fillRectChunkSizes_sum (P : Nat) : (fillRectChunkSizes P).sum = P := by
  induction P using Nat.strong_induction_on with
  | _ P ih =>
    rcases Nat.eq_zero_or_pos P with hP | hP
    · subst hP; rfl
    · rw [fillRectChunkSizes_pos P hP, List.sum_cons, ih (P - 512) (by omega)]
      omega

theorem fillRectChunkSizes_length (P : Nat) :
    (fillRectChunkSizes P).length = (P + 511) / 512 := by
  simp [fillRectChunkSizes]

theorem fillRectChunkSizes_le (P : Nat) : ∀ n ∈ fillRectChunkSizes P, n ≤ 512 := by
  intro n hn
  unfold fillRectChunkSizes at hn
  obtain ⟨k, _, hk⟩ := List.mem_map.1 hn
  omega

/-! ### Trace-accounting helper lemmas -/

theorem totalPixelsStreamed_append (l1 l2 : List DEvent) :
    totalPixelsStreamed (l1 ++ l2) = totalPixelsStreamed l1 + totalPixelsStreamed l2 := by
  simp [totalPixelsStreamed]

theorem totalPixelsStreamed_setWindowEvents (rot a b c d : Nat) :
    totalPixelsStreamed (setWindowEvents rot a b c d) = 0 := by
  by_cases h : rot = 1 ∨ rot = 3 <;> simp [setWindowEvents, h, totalPixelsStreamed]

theorem totalPixelsStreamed_chunkMap (ns : List Nat) (c : Nat) :
    totalPixelsStreamed (ns.map (fun n => DEvent.pixelData n c)) = ns.sum := by
  induction ns with
  | nil => rfl
  | cons n ns ih => simp [totalPixelsStreamed, List.map_cons] at ih ⊢; omega

theorem pixelTransferCount_append (l1 l2 : List DEvent) :
    pixelTransferCount (l1 ++ l2) = pixelTransferCount l1 + pixelTransferCount l2 := by
  simp [pixelTransferCount]

theorem pixelTransferCount_setWindowEvents (rot a b c d : Nat) :
    pixelTransferCount (setWindowEvents rot a b c d) = 0 := by
  by_cases h : rot = 1 ∨ rot = 3 <;> simp [setWindowEvents, h, pixelTransferCount]

theorem pixelTransferCount_chunkMap (ns : List Nat) (c : Nat) :
    pixelTransferCount (ns.map (fun n => DEvent.pixelData n c)) = ns.length := by
  induction ns with
  | nil => rfl
  | cons n ns ih => simp [pixelTransferCount, List.map_cons] at ih ⊢; omega

theorem totalPixelsStreamed_fillRectEvents (W H rot x y w h c : Nat) :
    totalPixelsStreamed (fillRectEvents W H rot x y w h c) = w * h := by
  unfold fillRectEvents
  rw [totalPixelsStreamed_append, totalPixelsStreamed_setWindowEvents,
    totalPixelsStreamed_chunkMap, fillRectChunkSizes_sum]
  omega

theorem pixelTransferCount_fillRectEvents (W H rot x y w h c : Nat) :
    pixelTransferCount (fillRectEvents W H rot x y w h c) = (w * h + 511) / 512 := by
  unfold fillRectEvents
  rw [pixelTransferCount_append, pixelTransferCount_setWindowEvents,
    pixelTransferCount_chunkMap, fillRectChunkSizes_length]
  omega

theorem setWindowEvents_ne_nil (rot a b c d : Nat) : setWindowEvents rot a b c d ≠ [] := by
  by_cases h : rot = 1 ∨ rot = 3 <;> simp [setWindowEvents, h]

/-! ## Claims about the display driver -/

/-- C2 counterexample: `fill_rect(300, 0, 10, 10, 7)` on a 240×320 canvas
lies fully outside, so the claim demands an empty clipped window and zero
transfers; the code nevertheless issues a `set_window` and streams all
100 = 10×10 pixels in one transfer. -/
theorem claim2_counterexample :
    specClippedArea 240 320 300 0 10 10 = 0 ∧
    totalPixelsStreamed (fillRectEvents 240 320 0 300 0 10 10 7) = 100 ∧
    pixelTransferCount (fillRectEvents 240 320 0 300 0 10 10 7) = 1 ∧
    fillRectEvents 240 320 0 300 0 10 10 7 ≠ [] := by
  refine ⟨by decide, by decide, by decide, ?_⟩
  decide

/-- C2 (amended): for every `fill_rect(x, y, w, h, color)` call with `w, h > 0`
(non-negative coordinates), the window passed to `set_window` is clipped only
on the right/bottom edges, to `(x, y, min (x+w-1) (W-1), min (y+h-1) (H-1))`;
the number of pixels streamed always equals `w * h` (not the clipped area);
and a rectangle fully outside the canvas still issues a `set_window` and
streams `w * h` pixels — it is not a no-op. -/
theorem claim2_fill_rect_clipping_amended (W H rot x y w h c : Nat)
    (hw : 0 < w) (hh : 0 < h) :
    fillRectEvents W H rot x y w h c =
      setWindowEvents rot x y (min (x + w - 1) (W - 1)) (min (y + h - 1) (H - 1)) ++
        (fillRectChunkSizes (w * h)).map (fun n => DEvent.pixelData n c) ∧
    totalPixelsStreamed (fillRectEvents W H rot x y w h c) = w * h ∧
    fillRectEvents W H rot x y w h c ≠ [] := by
  refine ⟨rfl, totalPixelsStreamed_fillRectEvents W H rot x y w h c, ?_⟩
  unfold fillRectEvents
  intro hcontra
  exact setWindowEvents_ne_nil rot x y _ _ (List.append_eq_nil.1 hcontra).1

theorem claim2_fill_rect_clipping_amended_witness :
    totalPixelsStreamed (fillRectEvents 240 320 0 300 0 10 10 7) = 10 * 10 ∧
    fillRectEvents 240 320 0 300 0 10 10 7 ≠ [] :=
  ⟨(claim2_fill_rect_clipping_amended 240 320 0 300 0 10 10 7 (by decide) (by decide)).2.1,
   (claim2_fill_rect_clipping_amended 240 320 0 300 0 10 10 7 (by decide) (by decide)).2.2⟩

/-- C3: for every `fill_rect` call with `w, h > 0` whose rectangle lies fully
inside the canvas, exactly one `set_window` is issued, with bounds
`(x, y, x+w-1, y+h-1)`, and the pixels are streamed in exactly
`ceil (w*h / 512)` chunked transfers, each chunk at most 512 pixels,
the chunk sizes summing to exactly `w * h`. -/
theorem claim3_fill_rect_inside_canvas (W H rot x y w h c : Nat)
    (hw : 0 < w) (hh : 0 < h) (hx : x + w ≤ W) (hy : y + h ≤ H) :
    fillRectEvents W H rot x y w h c =
      setWindowEvents rot x y (x + w - 1) (y + h - 1) ++
        (fillRectChunkSizes (w * h)).map (fun n => DEvent.pixelData n c) ∧
    pixelTransferCount (fillRectEvents W H rot x y w h c) = (w * h + 511) / 512 ∧
    (∀ n ∈ fillRectChunkSizes (w * h), n ≤ 512) ∧
    totalPixelsStreamed (fillRectEvents W H rot x y w h c) = w * h := by
  have hxe : min (x + w - 1) (W - 1) = x + w - 1 := by omega
  have hye : min (y + h - 1) (H - 1) = y + h - 1 := by omega
  refine ⟨?_, pixelTransferCount_fillRectEvents W H rot x y w h c,
    fillRectChunkSizes_le (w * h), totalPixelsStreamed_fillRectEvents W H rot x y w h c⟩
  unfold fillRectEvents
  rw [hxe, hye]

theorem claim3_fill_rect_inside_canvas_witness :
    fillRectEvents 240 320 0 10 20 100 7 5 =
      setWindowEvents 0 10 20 109 26 ++
        (fillRectChunkSizes 700).map (fun n => DEvent.pixelData n 5) ∧
    pixelTransferCount (fillRectEvents 240 320 0 10 20 100 7 5) = 2 ∧
    totalPixelsStreamed (fillRectEvents 240 320 0 10 20 100 7 5) = 700 := by
  have h := claim3_fill_rect_inside_canvas 240 320 0 10 20 100 7 5
    (by decide) (by decide) (by decide) (by decide)
  exact ⟨h.1, h.2.1, h.2.2.2⟩

/-- C6: for every `set_window(x0,y0,x1,y1)` call with 16-bit bounds and every
rotation selector in {0,1,2,3}: the column-address (CASET) and row-address
(RASET) registers each receive a big-endian pair of 16-bit bounds; the x/y
axes are swapped before encoding exactly when the rotation is 1 or 3 and
never when it is 0 or 2; and the orientation-register (MADCTL) value is one
of exactly 4 fixed byte patterns, determined deterministically by the
rotation selector. -/
theorem claim6_set_window_rotation (rot x0 y0 x1 y1 : Nat) (hr : rot < 4)
    (h0 : x0 < 65536) (h1 : y0 < 65536) (h2 : x1 < 65536) (h3 : y1 < 65536) :
    ((rot = 1 ∨ rot = 3) →
      setWindowEvents rot x0 y0 x1 y1 =
        [DEvent.cmd CASET, DEvent.data [y0 / 256, y0 % 256, y1 / 256, y1 % 256],
         DEvent.cmd RASET, DEvent.data [x0 / 256, x0 % 256, x1 / 256, x1 % 256],
         DEvent.cmd RAMWR]) ∧
    ((rot = 0 ∨ rot = 2) →
      setWindowEvents rot x0 y0 x1 y1 =
        [DEvent.cmd CASET, DEvent.data [x0 / 256, x0 % 256, x1 / 256, x1 % 256],
         DEvent.cmd RASET, DEvent.data [y0 / 256, y0 % 256, y1 / 256, y1 % 256],
         DEvent.cmd RAMWR]) ∧
    (∀ v : Nat, v < 65536 →
      pack16be v = [v / 256, v % 256] ∧ v / 256 < 256 ∧ v % 256 < 256 ∧
        256 * (v / 256) + v % 256 = v) ∧
    (getMadctl rot = 0x00 ∨ getMadctl rot = 0x60 ∨ getMadctl rot = 0xC0 ∨
      getMadctl rot = 0xA0) ∧
    (getMadctl 0 = 0x00 ∧ getMadctl 1 = 0x60 ∧ getMadctl 2 = 0xC0 ∧
      getMadctl 3 = 0xA0) := by
  have e0 : x0 / 256 % 256 = x0 / 256 := by omega
  have e1 : y0 / 256 % 256 = y0 / 256 := by omega
  have e2 : x1 / 256 % 256 = x1 / 256 := by omega
  have e3 : y1 / 256 % 256 = y1 / 256 := by omega
  refine ⟨?_, ?_, ?_, ?_, by decide⟩
  · intro h
    unfold setWindowEvents
    rw [if_pos h]
    simp [pack16be, e0, e1, e2, e3]
  · intro h
    have hne : ¬(rot = 1 ∨ rot = 3) := by omega
    unfold setWindowEvents
    rw [if_neg hne]
    simp [pack16be, e0, e1, e2, e3]
  · intro v hv
    have : v / 256 % 256 = v / 256 := by omega
    exact ⟨by simp [pack16be, this], by omega, by omega, by omega⟩
  · interval_cases rot <;> simp [getMadctl]

theorem claim6_set_window_rotation_witness :
    (setWindowEvents 1 10 20 300 40 =
      [DEvent.cmd CASET, DEvent.data [0, 20, 0, 40],
       DEvent.cmd RASET, DEvent.data [0, 10, 1, 44],
       DEvent.cmd RAMWR]) ∧
    (setWindowEvents 0 10 20 300 40 =
      [DEvent.cmd CASET, DEvent.data [0, 10, 1, 44],
       DEvent.cmd RASET, DEvent.data [0, 20, 0, 40],
       DEvent.cmd RAMWR]) ∧
    getMadctl 1 = 0x60 := by
  have hswap := claim6_set_window_rotation 1 10 20 300 40
    (by decide) (by decide) (by decide) (by decide) (by decide)
  have hid := claim6_set_window_rotation 0 10 20 300 40
    (by decide) (by decide) (by decide) (by decide) (by decide)
  exact ⟨by rw [hswap.1 (Or.inl rfl)], by rw [hid.2.1 (Or.inl rfl)], hswap.2.2.2.2.2.1⟩

/-- C7 counterexample: with a reset line configured, the first pin transition
`reset()` performs drives the line HIGH (to 1), not low — the claimed order
"asserted low, then high, then released" does not match the code's
high-100ms / low-100ms / high-200ms pulse. -/
theorem claim7_counterexample :
    (resetEvents true).head? = some (REvent.setPin 1) ∧
    (resetEvents true).head? ≠ some (REvent.setPin 0) ∧
    resetEvents true ≠
      [REvent.setPin 0, REvent.sleepMs 100, REvent.setPin 1, REvent.sleepMs 100,
       REvent.setPin 1, REvent.sleepMs 200] := by
  refine ⟨rfl, by decide, by decide⟩

/-- C7 (amended): when a reset line is configured, `reset()` drives the line
high and holds 100 ms, then low for 100 ms, then high (released) for 200 ms,
in that order; when no reset line is configured, `reset()` performs no line
transitions and no delays. -/
theorem claim7_reset_pulse_amended :
    resetEvents true =
      [REvent.setPin 1, REvent.sleepMs 100, REvent.setPin 0, REvent.sleepMs 100,
       REvent.setPin 1, REvent.sleepMs 200] ∧
    resetEvents false = [] := by
  exact ⟨rfl, rfl⟩

set_option maxRecDepth 100000 in
/-- C8 counterexample: `fill_rect(0,0,240,320,BLACK)` on a 240×320 canvas
streams 76800 pixels in 150 transfers, but since 76800 = 150 × 512 exactly,
ALL 150 chunks are full 512-pixel chunks — there is no 256-pixel chunk, so
the claimed "149 full + 1 of 256" split is wrong. -/
theorem claim8_counterexample :
    fillRectChunkSizes (240 * 320) = List.replicate 150 512 ∧
    (fillRectChunkSizes (240 * 320)).count 256 = 0 ∧
    fillRectChunkSizes (240 * 320) ≠ List.replicate 149 512 ++ [256] := by
  refine ⟨by decide, by decide, by decide⟩

set_option maxRecDepth 100000 in
/-- C8 (amended): on a 240×320 canvas with chunk capacity 512,
`fill_rect(0,0,240,320,BLACK)` streams 76800 pixels in exactly 150 chunked
transfers, every one of them a full 512-pixel chunk. -/
theorem claim8_full_screen_fill_amended :
    fillRectEvents 240 320 0 0 0 240 320 ST_BLACK =
      setWindowEvents 0 0 0 239 319 ++
        (List.replicate 150 512).map (fun n => DEvent.pixelData n ST_BLACK) ∧
    totalPixelsStreamed (fillRectEvents 240 320 0 0 0 240 320 ST_BLACK) = 76800 ∧
    pixelTransferCount (fillRectEvents 240 320 0 0 0 240 320 ST_BLACK) = 150 := by
  refine ⟨by decide, by decide, by decide⟩

/-! ## Joystick driver (`joystick_driver.py`)

The `Joystick` object's mutable attributes are threaded explicitly.  Pin and
ADC reads and `time.ticks_ms()` become explicit inputs of each method; ticks
are `Int` and `time.ticks_diff(a, b)` is `a - b`.
`_button_was_pressed_for_click` is never assigned by `__init__` (it is first
assigned inside `is_button_clicked_once` itself), so it is modelled as an
`Option Bool` that is `none` while the attribute does not exist; reading it
while `none` is Python's `AttributeError`. -/

structure Joystick where
  xCenter : Int
  yCenter : Int
  threshold : Int
  debounceMs : Int
  clickThresholdMs : Int
  lastButtonState : Nat
  lastButtonChangeTime : Int
  buttonPressedSinceLastCheck : Bool
  buttonDownStartTime : Int
  lastDirection : String
  lastDirectionTime : Int
  directionRepeatDelayMs : Int
  buttonStateForClick : Nat
  lastButtonValueForClick : Nat
  buttonWasPressedForClick : Option Bool
  deriving DecidableEq

/-- `Joystick.__init__` (joystick_driver.py lines 6-46) with the default
keyword arguments, where `buttonValue` is the initial `self.button.value()`
read and `t0` the initial `time.ticks_ms()`.  The class-level attributes
`_button_state_for_click = 0` and `_last_button_value_for_click = 1`
(lines 151-152) are part of the initial attribute environment;
`_button_was_pressed_for_click` is absent (`none`). -/
def joystickInit (buttonValue : Nat) (t0 : Int) : Joystick :=
  { xCenter := 2048, yCenter := 2048, threshold := 800,
    debounceMs := 50, clickThresholdMs := 300,
    lastButtonState := buttonValue, lastButtonChangeTime := t0,
    buttonPressedSinceLastCheck := false, buttonDownStartTime := 0,
    lastDirection := "center", lastDirectionTime := t0,
    directionRepeatDelayMs := 150,
    buttonStateForClick := 0, lastButtonValueForClick := 1,
    buttonWasPressedForClick := none }

/-- The direction classification chain of `get_direction`
(joystick_driver.py lines 63-72). -/
def classifyDirection (j : Joystick) (xVal yVal : Int) : String :=
  if xVal > j.xCenter + j.threshold then "right"
  else if xVal < j.xCenter - j.threshold then "left"
  else if yVal > j.yCenter + j.threshold then "down"
  else if yVal < j.yCenter - j.threshold then "up"
  else "center"

/-- `get_direction(allow_repeat)` (joystick_driver.py lines 52-93), taking the
two ADC reads and the current tick count as inputs. -/
def getDirection (j : Joystick) (xVal yVal now : Int) (allowRepeat : Bool) :
    Joystick × String :=
  let currentDirection := classifyDirection j xVal yVal
  if allowRepeat then
    if currentDirection ≠ "center" then
      if currentDirection ≠ j.lastDirection ∨
          now - j.lastDirectionTime > j.directionRepeatDelayMs then
        ({ j with lastDirection := currentDirection, lastDirectionTime := now },
         currentDirection)
      else (j, "center")
    else ({ j with lastDirection := "center" }, "center")
  else
    if currentDirection ≠ j.lastDirection then
      ({ j with lastDirection := currentDirection }, currentDirection)
    else (j, "center")

/-- Repeated polling of `get_direction`; each poll supplies
`(x_val, y_val, now)`. -/
def runGetDirection (allowRepeat : Bool) : Joystick → List (Int × Int × Int) →
    Joystick × List String
  | j, [] => (j, [])
  | j, (x, y, t) :: ps =>
    let r := getDirection j x y t allowRepeat
    let rest := runGetDirection allowRepeat r.1 ps
    (rest.1, r.2 :: rest.2)

/-- `is_button_down()` (joystick_driver.py lines 95-120), taking the raw pin
value and the current tick count.  Note both arms of the final debounce test
return `self._last_button_state == 0`. -/
def isButtonDown (j : Joystick) (rawButtonState : Nat) (now : Int) :
    Joystick × Bool :=
  let j1 :=
    if rawButtonState ≠ j.lastButtonState then
      { j with lastButtonChangeTime := now, lastButtonState := rawButtonState }
    else j
  if now - j1.lastButtonChangeTime > j1.debounceMs then
    (j1, j1.lastButtonState = 0)
  else
    (j1, j1.lastButtonState = 0)

/-- `is_button_clicked_once()` (joystick_driver.py lines 122-147).  Python's
short-circuit `and` means `self._button_was_pressed_for_click` is read in the
first condition when `pressed_now` is truthy and otherwise in the `elif`
condition; in a fresh instance either read raises `AttributeError`. -/
def isButtonClickedOnce (j : Joystick) (rawButtonState : Nat) (now : Int) :
    Except String (Joystick × Bool) :=
  let r := isButtonDown j rawButtonState now
  let j1 := r.1
  let pressedNow := r.2
  if pressedNow then
    match j1.buttonWasPressedForClick with
    | none => Except.error "AttributeError"
    | some wasPressed =>
      if ¬wasPressed then
        Except.ok ({ j1 with buttonWasPressedForClick := some true,
                             buttonPressedSinceLastCheck := false }, false)
      else
        Except.ok (j1, false)
  else
    match j1.buttonWasPressedForClick with
    | none => Except.error "AttributeError"
    | some wasPressed =>
      if wasPressed then
        Except.ok ({ j1 with buttonWasPressedForClick := some false,
                             buttonPressedSinceLastCheck := true }, true)
      else
        if j1.buttonPressedSinceLastCheck then
          Except.ok ({ j1 with buttonPressedSinceLastCheck := false }, false)
        else
          Except.ok (j1, false)

/-- `check_for_single_click()` (joystick_driver.py lines 154-185): the
two-state (Idle = 0 / Pressed = 1) debounce + click-timing machine, taking
the raw pin value and current tick count. -/
def checkForSingleClick (j : Joystick) (currentValue : Nat) (now : Int) :
    Joystick × Bool :=
  let r :=
    if j.buttonStateForClick = 0 then
      if currentValue = 0 ∧ j.lastButtonValueForClick = 1 then
        if now - j.lastButtonChangeTime > j.debounceMs then
          (({ j with buttonStateForClick := 1, buttonDownStartTime := now,
                     lastButtonChangeTime := now } : Joystick), false)
        else (j, false)
      else (j, false)
    else if j.buttonStateForClick = 1 then
      if currentValue = 1 then
        if now - j.lastButtonChangeTime > j.debounceMs then
          (({ j with buttonStateForClick := 0, lastButtonChangeTime := now } : Joystick),
           decide (now - j.buttonDownStartTime < j.clickThresholdMs))
        else (j, false)
      else (j, false)
    else (j, false)
  ({ r.1 with lastButtonValueForClick := currentValue }, r.2)

/-- Repeated polling of `check_for_single_click`; each poll supplies the raw
pin value and the tick count, and the total number of reported clicks is
accumulated. -/
def runClicks : Joystick → List (Nat × Int) → Joystick × Nat
  | j, [] => (j, 0)
  | j, (v, t) :: ps =>
    let r := checkForSingleClick j v t
    let rest := runClicks r.1 ps
    (rest.1, (if r.2 then 1 else 0) + rest.2)

/-- `calibrate` (joystick_driver.py lines 187-211) with the raw `(x, y)`
sample pairs collected during the timed loop made explicit.  The returned
`Bool` reports the zero-sample failure branch (line 211); the final
`Option (Int × Int)` is the function's Python return value — the source has
no `return` statement, so it is always `none`. -/
def calibrate (j : Joystick) (samples : List (Int × Int)) :
    Joystick × Bool × Option (Int × Int) :=
  let xSum := (samples.map (fun s => s.1)).sum
  let ySum := (samples.map (fun s => s.2)).sum
  let n := samples.length
  if n > 0 then
    ({ j with xCenter := xSum / n, yCenter := ySum / n }, false, none)
  else
    (j, true, none)

/-! ### Click-machine lemmas -/

theorem runClicks_append (l1 l2 : List (Nat × Int)) (j : Joystick) :
    runClicks j (l1 ++ l2) =
      ((runClicks (runClicks j l1).1 l2).1,
       (runClicks j l1).2 + (runClicks (runClicks j l1).1 l2).2) := by
  induction l1 generalizing j with
  | nil => simp [runClicks]
  | cons p l1 ih =>
    obtain ⟨v, t⟩ := p
    simp only [List.cons_append, runClicks]
    rw [List.append_eq, ih]
    simp [Nat.add_assoc]

theorem checkForSingleClick_press (j : Joystick) (tp : Int)
    (h0 : j.buttonStateForClick = 0) (h1 : j.lastButtonValueForClick = 1)
    (ht : tp - j.lastButtonChangeTime > j.debounceMs) :
    checkForSingleClick j 0 tp =
      ({ j with buttonStateForClick := 1, buttonDownStartTime := tp,
                lastButtonChangeTime := tp, lastButtonValueForClick := 0 }, false) := by
  simp [checkForSingleClick, h0, h1, ht]

theorem checkForSingleClick_release (j : Joystick) (tr : Int)
    (h1 : j.buttonStateForClick = 1)
    (ht : tr - j.lastButtonChangeTime > j.debounceMs) :
    checkForSingleClick j 1 tr =
      ({ j with buttonStateForClick := 0, lastButtonChangeTime := tr,
                lastButtonValueForClick := 1 },
       decide (tr - j.buttonDownStartTime < j.clickThresholdMs)) := by
  simp [checkForSingleClick, h1, ht]

theorem runClicks_pressed_hold (ts : List Int) (j : Joystick)
    (h : j.buttonStateForClick = 1) :
    runClicks j (ts.map (fun t => ((0 : Nat), t))) =
      ((if ts.isEmpty then j else { j with lastButtonValueForClick := 0 }), 0) := by
  induction ts generalizing j with
  | nil => simp [runClicks]
  | cons t ts ih =>
    have hstep : checkForSingleClick j 0 t =
        ({ j with lastButtonValueForClick := 0 }, false) := by
      simp [checkForSingleClick, h]
    have hupd : ({ j with lastButtonValueForClick := 0 } : Joystick).buttonStateForClick = 1 := h
    simp only [List.map_cons, runClicks, hstep]
    rw [ih _ hupd]
    cases ts <;> rfl

theorem checkForSingleClick_window_step (j : Joystick) (v : Nat) (t a : Int)
    (ht1 : a ≤ t) (ht2 : t ≤ a + j.debounceMs)
    (hinv : j.buttonStateForClick = 0 ∨
      (j.buttonStateForClick = 1 ∧ a ≤ j.lastButtonChangeTime)) :
    (checkForSingleClick j v t).2 = false ∧
    ((checkForSingleClick j v t).1.buttonStateForClick = 0 ∨
      ((checkForSingleClick j v t).1.buttonStateForClick = 1 ∧
        a ≤ (checkForSingleClick j v t).1.lastButtonChangeTime)) ∧
    (checkForSingleClick j v t).1.debounceMs = j.debounceMs := by
  rcases hinv with h0 | ⟨h1, ha⟩
  · simp only [checkForSingleClick, h0]
    split_ifs <;> simp_all
  · have hne : ¬ j.buttonStateForClick = 0 := by omega
    simp only [checkForSingleClick, hne, h1]
    split_ifs with hv htd <;> simp_all <;> omega

theorem runClicks_bounded_window (polls : List (Nat × Int)) :
    ∀ (j : Joystick) (a : Int),
      (∀ p ∈ polls, a ≤ p.2 ∧ p.2 ≤ a + j.debounceMs) →
      (j.buttonStateForClick = 0 ∨
        (j.buttonStateForClick = 1 ∧ a ≤ j.lastButtonChangeTime)) →
      (runClicks j polls).2 = 0 := by
  induction polls with
  | nil => intro j a _ _; rfl
  | cons p ps ih =>
    intro j a hb hinv
    obtain ⟨v, t⟩ := p
    obtain ⟨ht1, ht2⟩ := hb (v, t) (List.mem_cons_self _ _)
    obtain ⟨hclick, hinv2, hdeb⟩ := checkForSingleClick_window_step j v t a ht1 ht2 hinv
    have hb2 : ∀ q ∈ ps, a ≤ q.2 ∧ q.2 ≤ a + (checkForSingleClick j v t).1.debounceMs := by
      intro q hq
      rw [hdeb]
      exact hb q (List.mem_cons_of_mem _ hq)
    simp only [runClicks, hclick]
    simpa using ih (checkForSingleClick j v t).1 a hb2 hinv2

/-- C4: the click-detection state machine (`check_for_single_click`), polled
with a signal that goes active (0) and back inactive (1) starting and ending
in Idle: (i) if the hold lasted longer than the debounce window and less than
the click-duration ceiling, exactly one click is reported, and it is reported
on the release poll; (ii) if the hold lasted at least the ceiling, zero
clicks are reported although the machine still returns to Idle; (iii) any
active/inactive flips whose poll times all fall inside one debounce window
produce at most one click (in fact none), never two. -/
theorem claim4_click_state_machine :
    (∀ (j : Joystick) (tp tr : Int) (holds : List Int),
      j.buttonStateForClick = 0 →
      j.lastButtonValueForClick = 1 →
      tp - j.lastButtonChangeTime > j.debounceMs →
      tr - tp > j.debounceMs →
      tr - tp < j.clickThresholdMs →
      (runClicks j (((0 : Nat), tp) :: holds.map (fun t => ((0 : Nat), t)) ++
        [((1 : Nat), tr)])).2 = 1 ∧
      (runClicks j (((0 : Nat), tp) :: holds.map (fun t => ((0 : Nat), t)))).2 = 0 ∧
      (checkForSingleClick
        (runClicks j (((0 : Nat), tp) :: holds.map (fun t => ((0 : Nat), t)))).1
        1 tr).2 = true ∧
      (runClicks j (((0 : Nat), tp) :: holds.map (fun t => ((0 : Nat), t)) ++
        [((1 : Nat), tr)])).1.buttonStateForClick = 0) ∧
    (∀ (j : Joystick) (tp tr : Int) (holds : List Int),
      j.buttonStateForClick = 0 →
      j.lastButtonValueForClick = 1 →
      tp - j.lastButtonChangeTime > j.debounceMs →
      tr - tp > j.debounceMs →
      tr - tp ≥ j.clickThresholdMs →
      (runClicks j (((0 : Nat), tp) :: holds.map (fun t => ((0 : Nat), t)) ++
        [((1 : Nat), tr)])).2 = 0 ∧
      (runClicks j (((0 : Nat), tp) :: holds.map (fun t => ((0 : Nat), t)) ++
        [((1 : Nat), tr)])).1.buttonStateForClick = 0) ∧
    (∀ (j : Joystick) (polls : List (Nat × Int)) (a : Int),
      j.buttonStateForClick = 0 →
      (∀ p ∈ polls, a ≤ p.2 ∧ p.2 ≤ a + j.debounceMs) →
      (runClicks j polls).2 ≤ 1) := by
  have key : ∀ (j : Joystick) (tp tr : Int) (holds : List Int),
      j.buttonStateForClick = 0 →
      j.lastButtonValueForClick = 1 →
      tp - j.lastButtonChangeTime > j.debounceMs →
      tr - tp > j.debounceMs →
      runClicks j (((0 : Nat), tp) :: holds.map (fun t => ((0 : Nat), t)) ++
          [((1 : Nat), tr)]) =
        ({ j with buttonStateForClick := 0, buttonDownStartTime := tp,
                  lastButtonChangeTime := tr, lastButtonValueForClick := 1 },
         if tr - tp < j.clickThresholdMs then 1 else 0) ∧
      runClicks j (((0 : Nat), tp) :: holds.map (fun t => ((0 : Nat), t))) =
        ({ j with buttonStateForClick := 1, buttonDownStartTime := tp,
                  lastButtonChangeTime := tp, lastButtonValueForClick := 0 }, 0) := by
    intro j tp tr holds h0 h1 htp htr
    have hpress := checkForSingleClick_press j tp h0 h1 htp
    set j1 : Joystick :=
      { j with buttonStateForClick := 1, buttonDownStartTime := tp,
               lastButtonChangeTime := tp, lastButtonValueForClick := 0 } with hj1
    have hhold := runClicks_pressed_hold holds j1 rfl
    have hcollapse :
        (if holds.isEmpty then j1 else { j1 with lastButtonValueForClick := 0 }) = j1 := by
      cases holds <;> rfl
    rw [hcollapse] at hhold
    have hprefix :
        runClicks j (((0 : Nat), tp) :: holds.map (fun t => ((0 : Nat), t))) = (j1, 0) := by
      simp only [runClicks, hpress, hhold]
      simp
    have hrel := checkForSingleClick_release j1 tr rfl htr
    constructor
    · have hsplit := runClicks_append
        (((0 : Nat), tp) :: holds.map (fun t => ((0 : Nat), t))) [((1 : Nat), tr)] j
      rw [hsplit, hprefix]
      simp only [runClicks]
      rw [hrel]
      by_cases hc : tr - j1.buttonDownStartTime < j1.clickThresholdMs
      · have hc2 : tr - tp < j.clickThresholdMs := hc
        rw [if_pos hc2]
        simp only [Prod.mk.injEq]
        exact ⟨trivial, by simp [hc]⟩
      · have hc2 : ¬ tr - tp < j.clickThresholdMs := hc
        rw [if_neg hc2]
        simp only [Prod.mk.injEq]
        exact ⟨trivial, by simp [hc]⟩
    · exact hprefix
  refine ⟨?_, ?_, ?_⟩
  · intro j tp tr holds h0 h1 htp htr hlt
    obtain ⟨hfull, hpre⟩ := key j tp tr holds h0 h1 htp htr
    refine ⟨?_, ?_, ?_, ?_⟩
    · rw [hfull, if_pos hlt]
    · rw [hpre]
    · rw [hpre]
      have hrel := checkForSingleClick_release
        ({ j with buttonStateForClick := 1, buttonDownStartTime := tp,
                  lastButtonChangeTime := tp, lastButtonValueForClick := 0 } : Joystick)
        tr rfl htr
      rw [hrel]
      simpa using hlt
    · rw [hfull]
  · intro j tp tr holds h0 h1 htp htr hge
    obtain ⟨hfull, _⟩ := key j tp tr holds h0 h1 htp htr
    refine ⟨?_, ?_⟩
    · rw [hfull, if_neg (by omega)]
    · rw [hfull]
  · intro j polls a h0 hb
    rw [runClicks_bounded_window polls j a hb (Or.inl h0)]
    omega

theorem claim4_click_state_machine_witness :
    (runClicks (joystickInit 1 0)
      [((0 : Nat), (1000 : Int)), ((0 : Nat), 1050), ((1 : Nat), 1100)]).2 = 1 ∧
    (runClicks (joystickInit 1 0)
      [((0 : Nat), (1000 : Int)), ((0 : Nat), 1050), ((1 : Nat), 1400)]).2 = 0 ∧
    (runClicks (joystickInit 1 0)
      [((0 : Nat), (10 : Int)), ((1 : Nat), 20), ((0 : Nat), 30)]).2 ≤ 1 := by
  refine ⟨?_, ?_, ?_⟩
  · exact (claim4_click_state_machine.1 (joystickInit 1 0) 1000 1100 [1050]
      rfl rfl (by decide) (by decide) (by decide)).1
  · exact (claim4_click_state_machine.2.1 (joystickInit 1 0) 1000 1400 [1050]
      rfl rfl (by decide) (by decide) (by decide)).1
  · exact claim4_click_state_machine.2.2 (joystickInit 1 0)
      [((0 : Nat), (10 : Int)), ((1 : Nat), 20), ((0 : Nat), 30)] 0 rfl (by decide)

/-! ### Edge-mode direction lemmas -/

theorem classifyDirection_set_lastDirection (j : Joystick) (d : String) (x y : Int) :
    classifyDirection { j with lastDirection := d } x y = classifyDirection j x y := rfl

theorem runGetDirection_unchanged (ps : List (Int × Int × Int)) :
    ∀ (j : Joystick) (d : String),
      j.lastDirection = d →
      (∀ p ∈ ps, classifyDirection j p.1 p.2.1 = d) →
      runGetDirection false j ps = (j, ps.map (fun _ => "center")) := by
  induction ps with
  | nil => intro j d _ _; rfl
  | cons p ps ih =>
    intro j d hd hcl
    obtain ⟨x, y, t⟩ := p
    have hc : classifyDirection j x y = d := hcl (x, y, t) (List.mem_cons_self _ _)
    have hstep : getDirection j x y t false = (j, "center") := by
      simp [getDirection, hc, hd]
    simp only [runGetDirection, hstep, List.map_cons]
    rw [ih j d hd (fun q hq => hcl q (List.mem_cons_of_mem _ hq))]

/-- C5: in edge mode (`get_direction(allow_repeat=False)`), a poll sequence
whose classified direction goes from center to right and then stays right
returns `"right"` exactly once — on the poll where the classification
changes — and `"center"` on every subsequent poll; after the stick returns to
the dead zone and is deflected right again, `"right"` is reported again
(once). -/
theorem claim5_edge_mode_single_report (j : Joystick) (x0 y0 t0 : Int)
    (ps : List (Int × Int × Int))
    (hlast : j.lastDirection = "center")
    (h0 : classifyDirection j x0 y0 = "right")
    (hps : ∀ p ∈ ps, classifyDirection j p.1 p.2.1 = "right") :
    (runGetDirection false j ((x0, y0, t0) :: ps)).2 =
      "right" :: ps.map (fun _ => "center") ∧
    (runGetDirection false j ((x0, y0, t0) :: ps)).1.lastDirection = "right" ∧
    (∀ cx cy ct rx ry rt : Int,
      classifyDirection j cx cy = "center" →
      classifyDirection j rx ry = "right" →
      (runGetDirection false (runGetDirection false j ((x0, y0, t0) :: ps)).1
        [(cx, cy, ct), (rx, ry, rt)]).2 = ["center", "right"]) := by
  have hstep : getDirection j x0 y0 t0 false =
      ({ j with lastDirection := "right" }, "right") := by
    simp [getDirection, h0, hlast]
  have hrun : runGetDirection false j ((x0, y0, t0) :: ps) =
      ({ j with lastDirection := "right" }, "right" :: ps.map (fun _ => "center")) := by
    simp only [runGetDirection, hstep]
    rw [runGetDirection_unchanged ps { j with lastDirection := "right" } "right" rfl
      (fun q hq => by rw [classifyDirection_set_lastDirection]; exact hps q hq)]
  refine ⟨by rw [hrun], by rw [hrun], ?_⟩
  intro cx cy ct rx ry rt hcen hr
  rw [hrun]
  have hstep1 : getDirection { j with lastDirection := "right" } cx cy ct false =
      ({ j with lastDirection := "center" }, "center") := by
    simp [getDirection, classifyDirection_set_lastDirection, hcen]
  have hstep2 : getDirection { j with lastDirection := "center" } rx ry rt false =
      ({ j with lastDirection := "right" }, "right") := by
    simp [getDirection, classifyDirection_set_lastDirection, hr]
  simp [runGetDirection, hstep1, hstep2]

theorem claim5_edge_mode_single_report_witness :
    (runGetDirection false (joystickInit 1 0)
      [((3000 : Int), (2048 : Int), (0 : Int)), (3000, 2048, 20)]).2 =
      ["right", "center"] ∧
    (runGetDirection false (runGetDirection false (joystickInit 1 0)
      [((3000 : Int), (2048 : Int), (0 : Int)), (3000, 2048, 20)]).1
      [((2048 : Int), (2048 : Int), (40 : Int)), (3000, 2048, 60)]).2 =
      ["center", "right"] := by
  have h := claim5_edge_mode_single_report (joystickInit 1 0) 3000 2048 0
    [(3000, 2048, 20)] rfl (by decide) (by decide)
  exact ⟨h.1, h.2.2 2048 2048 40 3000 2048 60 (by decide) (by decide)⟩

/-- C9 counterexample: `calibrate` on a window that collected the single raw
sample (2000, 2100) overwrites the centre values with the averages, but its
Python return value is `None` — the function body has no `return` statement —
so it does not return the pair `(center_x, center_y)` as claimed. -/
theorem claim9_counterexample :
    (calibrate (joystickInit 1 0) [((2000 : Int), (2100 : Int))]).2.2 = none ∧
    (calibrate (joystickInit 1 0) [((2000 : Int), (2100 : Int))]).1.xCenter = 2000 ∧
    (calibrate (joystickInit 1 0) [((2000 : Int), (2100 : Int))]).1.yCenter = 2100 ∧
    (calibrate (joystickInit 1 0) [((2000 : Int), (2100 : Int))]).2.2 ≠
      some (2000, 2100) := by
  refine ⟨rfl, by decide, by decide, by decide⟩

/-- C9 (amended): `calibrate` averages the raw samples collected over its
window by integer division and overwrites the active centre values with those
averages, but returns `None` (there is no return statement), not the pair;
when zero samples were collected, the empty-sample condition is reported and
the prior centre values are left unchanged. -/
theorem claim9_calibrate_amended (j : Joystick) (samples : List (Int × Int)) :
    (samples.length > 0 →
      (calibrate j samples).1.xCenter =
        (samples.map (fun s => s.1)).sum / (samples.length : Int) ∧
      (calibrate j samples).1.yCenter =
        (samples.map (fun s => s.2)).sum / (samples.length : Int) ∧
      (calibrate j samples).2.1 = false ∧
      (calibrate j samples).2.2 = none) ∧
    (samples.length = 0 →
      (calibrate j samples).1 = j ∧
      (calibrate j samples).2.1 = true ∧
      (calibrate j samples).2.2 = none) := by
  constructor
  · intro h
    unfold calibrate
    rw [if_pos h]
    refine ⟨by rfl, by rfl, by rfl, by rfl⟩
  · intro h
    unfold calibrate
    rw [if_neg (by omega)]
    exact ⟨rfl, rfl, rfl⟩

theorem claim9_calibrate_amended_witness :
    ((calibrate (joystickInit 1 0) [((2000 : Int), (2100 : Int)), (2004, 2104)]).1.xCenter
      = 2002 ∧
     (calibrate (joystickInit 1 0) [((2000 : Int), (2100 : Int)), (2004, 2104)]).2.2
      = none) ∧
    ((calibrate (joystickInit 1 0) []).1 = joystickInit 1 0 ∧
     (calibrate (joystickInit 1 0) []).2.1 = true) := by
  have h1 := (claim9_calibrate_amended (joystickInit 1 0)
    [((2000 : Int), (2100 : Int)), (2004, 2104)]).1 (by decide)
  have h2 := (claim9_calibrate_amended (joystickInit 1 0) []).2 rfl
  exact ⟨⟨by rw [h1.1]; decide, h1.2.2.2⟩, ⟨h2.1, h2.2.1⟩⟩

/-- C10: on a freshly constructed `Joystick`, the first call to
`is_button_clicked_once` always raises `AttributeError`, whatever the raw
pin value and tick count: whichever branch is taken reads
`_button_was_pressed_for_click`, which no code path has written and the
constructor never initializes. -/
theorem claim10_first_click_check_raises (b0 raw : Nat) (t0 now : Int) :
    isButtonClickedOnce (joystickInit b0 t0) raw now =
      Except.error "AttributeError" := by
  have hattr : (isButtonDown (joystickInit b0 t0) raw now).1.buttonWasPressedForClick
      = none := by
    simp only [isButtonDown, joystickInit]
    split_ifs <;> rfl
  simp only [isButtonClickedOnce]
  split_ifs <;> rw [hattr]

/-! ## UI manager (`ui_manager.py`)

Drawing is modelled as the list of calls the `UIManager` issues into the
ST7789 driver's public surface: `fill` (whole-screen fill, used by
`clear_screen`), `fill_rect`, and `text`.  Coordinates are `Int` (Python
ints); colours are the packed RGB565 values.  `draw_menu` can raise
`IndexError` through Python list indexing, hence `Except`. -/

inductive UEvent where
  | fill (color : Nat)
  | fillRect (x y w h : Int) (color : Nat)
  | text (s : String) (x y : Int) (color : Nat)
  deriving DecidableEq

/-- `self._last_menu_state` (ui_manager.py lines 32-36): the dict retained
for partial refresh.  The initial dict has no `'title_text'` key; since it is
only read with `.get('title_text')` (default `None`), a missing key and a
stored `None` are both `none`. -/
structure MenuState where
  selectedIdx : Int
  items : Option (List String)
  startY : Int
  titleText : Option String
  deriving DecidableEq

structure UIState where
  width : Int
  height : Int
  textColor : Nat
  bgColor : Nat
  highlightTextColor : Nat
  highlightBgColor : Nat
  charWidthEng : Int
  charHeight : Int
  lineSpacing : Int
  lastMenu : MenuState
  deriving DecidableEq

/-- `UIManager.__init__` (ui_manager.py lines 7-36) with the default `None`
colour arguments, so the ST7789 class constants are used: text = WHITE,
background = BLACK, highlight text = GREEN, highlight background = YELLOW
(this driver's inverted colour table). -/
def uiInit (w h : Int) : UIState :=
  { width := w, height := h,
    textColor := ST_WHITE, bgColor := ST_BLACK,
    highlightTextColor := ST_GREEN, highlightBgColor := ST_YELLOW,
    charWidthEng := 8, charHeight := 16, lineSpacing := 4,
    lastMenu := { selectedIdx := -1, items := none, startY := 0, titleText := none } }

/-- Python truthiness of an optional string (`if title:`): `None` and the
empty string are falsy. -/
def pyTruthy : Option String → Bool
  | none => false
  | some s => s ≠ ""

/-- Python list indexing `l[i]` (negative indices count from the end;
out of range raises `IndexError`, modelled as `none`). -/
def pyListGet (l : List String) (i : Int) : Option String :=
  if 0 ≤ i then l.get? i.toNat
  else if 0 ≤ (l.length : Int) + i then l.get? ((l.length : Int) + i).toNat
  else none

/-- `_draw_char_internal` (ui_manager.py lines 42-47): an optional background
`fill_rect` of one character cell followed by one `screen.text` call of the
single character (code points ≥ 128 become `'?'`). -/
def drawCharInternal (ui : UIState) (charCode : Nat) (x y : Int) (color : Nat)
    (bg : Option Nat) : List UEvent :=
  let c : Char := if charCode < 128 then Char.ofNat charCode else '?'
  (match bg with
   | some b => [UEvent.fillRect x y ui.charWidthEng ui.charHeight b]
   | none => []) ++ [UEvent.text (String.singleton c) x y color]

/-- The character loop of `display_text_line` (ui_manager.py lines 56-62):
stops (`break`) when the next glyph would exceed `x + max_width`; returns the
final `current_x`. -/
def displayTextLineAux (ui : UIState) (chars : List Char) (xStart currentX y : Int)
    (color : Nat) (bg : Option Nat) (maxWidth : Option Int) : Int × List UEvent :=
  match chars with
  | [] => (currentX, [])
  | c :: rest =>
    if (match maxWidth with
        | some mw => decide (currentX + ui.charWidthEng > xStart + mw)
        | none => false) then
      (currentX, [])
    else
      let evs := drawCharInternal ui c.toNat currentX y color bg
      let r := displayTextLineAux ui rest xStart (currentX + ui.charWidthEng) y color bg maxWidth
      (r.1, evs ++ r.2)

/-- `display_text_line` (ui_manager.py lines 49-62). -/
def displayTextLine (ui : UIState) (text : String) (x y : Int)
    (textColor : Option Nat) (bg : Option Nat) (maxWidth : Option Int) :
    Int × List UEvent :=
  let color := textColor.getD ui.textColor
  displayTextLineAux ui text.toList x x y color bg maxWidth

/-- The word-wrapping loop of `display_text_multiline`
(ui_manager.py lines 76-90), carrying `current_line` and the running `y`;
returns early (dropping the pending line) when the next line would start
below the screen. -/
def displayTextMultilineAux (ui : UIState) (words : List String) (x y maxWidth : Int)
    (color : Nat) (bg : Option Nat) (lineHeight : Int) (currentLine : String) :
    List UEvent :=
  match words with
  | [] =>
    if currentLine ≠ "" then
      (displayTextLine ui currentLine x y (some color) bg (some maxWidth)).2
    else []
  | w :: ws =>
    let testLine := currentLine ++ (if currentLine ≠ "" then " " else "") ++ w
    if (testLine.length : Int) * ui.charWidthEng ≤ maxWidth then
      displayTextMultilineAux ui ws x y maxWidth color bg lineHeight testLine
    else
      let evs := (displayTextLine ui currentLine x y (some color) bg (some maxWidth)).2
      if y + lineHeight + ui.charHeight > ui.height then evs
      else evs ++ displayTextMultilineAux ui ws x (y + lineHeight) maxWidth color bg lineHeight w

/-- Python `text.split(' ')` (explicit single-space separator: consecutive
separators produce empty fields, and the empty string splits to `[""]`). -/
def pySplitSpaceAux : List Char → List Char → List String
  | [], acc => [String.mk acc.reverse]
  | c :: rest, acc =>
    if c = ' ' then String.mk acc.reverse :: pySplitSpaceAux rest []
    else pySplitSpaceAux rest (c :: acc)

def pySplitSpace (s : String) : List String :=
  pySplitSpaceAux s.toList []

/-- `display_text_multiline` (ui_manager.py lines 64-90). -/
def displayTextMultiline (ui : UIState) (text : String) (x y maxWidth : Int)
    (textColor : Option Nat) (bg : Option Nat) (lineHeight : Option Int) :
    List UEvent :=
  let color := textColor.getD ui.textColor
  let actualLineHeight := lineHeight.getD (ui.charHeight + ui.lineSpacing)
  displayTextMultilineAux ui (pySplitSpace text) x y maxWidth color bg actualLineHeight ""

/-- `_draw_menu_item` (ui_manager.py lines 126-136): one rectangle fill of the
item row plus the item text drawn with `display_text_line` (transparent
background, no width limit). -/
def drawMenuItem (ui : UIState) (index : Int) (text : String)
    (startY titleHeight : Int) (isSelected : Bool) : List UEvent :=
  let yPos := startY + titleHeight + index * (ui.charHeight + ui.lineSpacing * 2)
  let itemHeight := ui.charHeight + ui.lineSpacing
  UEvent.fillRect 0 yPos ui.width itemHeight
      (if isSelected then ui.highlightBgColor else ui.bgColor) ::
    (displayTextLine ui text 5 (yPos + ui.lineSpacing)
      (some (if isSelected then ui.highlightTextColor else ui.textColor)) none none).2

/-- `clear_screen` (ui_manager.py lines 38-40): one whole-screen fill. -/
def clearScreenEvents (ui : UIState) (color : Option Nat) : List UEvent :=
  [UEvent.fill (color.getD ui.bgColor)]

/-- `draw_menu` (ui_manager.py lines 92-125).  A full refresh happens when the
retained items / start_y / title differ from the arguments; the full-refresh
branch clears the screen and — only when the title is truthy — draws the
title band and every item row, and it never updates `_last_menu_state`.  The
partial branch redraws the previously selected and the newly selected rows
(Python `items[old_idx]` indexing may raise `IndexError`) and stores the new
state. -/
def drawMenu (ui : UIState) (items : List String) (selectedIndex : Int)
    (title : Option String) (startY : Int) : Except String (UIState × List UEvent) :=
  let last := ui.lastMenu
  let needFullRefresh : Bool :=
    last.items ≠ some items ∨ last.startY ≠ startY ∨ last.titleText ≠ title
  let titleHeight : Int := if pyTruthy title then ui.charHeight + ui.lineSpacing else 0
  if needFullRefresh then
    let evClear := clearScreenEvents ui none
    if pyTruthy title then
      let evTitle := UEvent.fillRect 0 startY ui.width titleHeight ui.bgColor ::
        displayTextMultiline ui (title.getD "") 5 startY (ui.width - 10)
          (some ui.highlightTextColor) (some ui.bgColor) none
      let evItems := items.enum.flatMap (fun p =>
        drawMenuItem ui (p.1 : Int) p.2 startY titleHeight
          (decide ((p.1 : Int) = selectedIndex)))
      Except.ok (ui, evClear ++ evTitle ++ evItems)
    else
      Except.ok (ui, evClear)
  else
    let oldIdx := last.selectedIdx
    if oldIdx ≠ selectedIndex then
      match pyListGet items oldIdx with
      | none => Except.error "IndexError"
      | some oldItem =>
        let ev1 := drawMenuItem ui oldIdx oldItem startY titleHeight false
        match pyListGet items selectedIndex with
        | none => Except.error "IndexError"
        | some newItem =>
          let ev2 := drawMenuItem ui selectedIndex newItem startY titleHeight true
          Except.ok ({ ui with lastMenu :=
            { selectedIdx := selectedIndex, items := some items,
              startY := startY, titleText := title } }, ev1 ++ ev2)
    else
      Except.ok (ui, [])

/-- The first `draw_menu` call of the C1 scenario: a fresh `UIManager` on a
240×320 screen, `draw_menu(["A","B"], 0, title="T", start_y=10)`. -/
def claim1FirstCall : Except String (UIState × List UEvent) :=
  drawMenu (uiInit 240 320) ["A", "B"] 0 (some "T") 10

/-- The consecutive second call of the C1 scenario: same `items`, `start_y`
and `title`, only `selected_index` changed from 0 to 1. -/
def claim1SecondCall : Except String (UIState × List UEvent) :=
  claim1FirstCall.bind (fun r => drawMenu r.1 ["A", "B"] 1 (some "T") 10)

/-- C1 (code bug): the full-refresh branch of `draw_menu` never updates
`_last_menu_state` (the update exists only inside the partial branch), so
after the first call the retained state still holds `items = None`,
`selected_idx = -1`; the consecutive second call with identical `items`,
`start_y`, `title` and only `selected_index` changed from 0 to 1 therefore
takes the FULL-repaint path again — its first emitted operation is a
whole-screen clear (`fill BLACK = 0xFFFF`) — instead of the claimed partial
repaint of exactly rows 0 and 1 with no screen clear.  Moreover a
full-repaint call whose `title` is `None` draws nothing after the clear
(the item-row loop sits inside `if title:`), contradicting "draws every item
row with its highlight state". -/
theorem claim1_draw_menu_partial_repaint_bug :
    claim1FirstCall.map (fun r => r.1.lastMenu) =
      Except.ok { selectedIdx := -1, items := none, startY := 0, titleText := none } ∧
    claim1SecondCall.map (fun r => r.2.head?) =
      Except.ok (some (UEvent.fill 0xFFFF)) ∧
    claim1SecondCall.map (fun r => r.2.length) = Except.ok 8 ∧
    (drawMenu (uiInit 240 320) ["A", "B"] 0 none 10).map (fun r => r.2) =
      Except.ok [UEvent.fill 0xFFFF] := by
  refine ⟨by rfl, by rfl, by rfl, by rfl⟩
